import Mathlib

/-!
Verification development for the mood-detection and music-recommendation
pipeline of the YouDecide server.

The definitions below are a shallow embedding of:
- `Server/app/recommender/mood_recommender.py` (dataset filtering, sampling,
  song-descriptor construction, URI resolution);
- `Server/app/services/mood_service.py` (face-region fallback crop, argmax
  label selection, lazy model loading);
- `Server/app/routers/mood.py` (the `detect_mood` request orchestration).

Dataframe rows become a `Row` structure, the pandas dataframe becomes a
`List Row`, Python strings become Lean `String`, Python float columns become
`ℚ` (the thresholds 0.6, 0.4, 0.5, 0.8 are exact decimals), and fallible
code returns `Except`.  Randomness (`DataFrame.sample`) is modelled by an
explicit `sample` function parameter; the obligations it satisfies
(exact size, drawn without replacement) are stated as `SampleOK`.
-/

open List

/-! ### Python string primitives

The recommender uses `str.strip`, `str.startswith`, `str.lower`,
`str.split(sep)[-1]` and `urllib.parse.quote_plus`.  Each is embedded over
the character list of a Lean `String` so that concrete instances evaluate
by `decide`. -/

/-- Python `str.strip()`: remove leading and trailing whitespace. -/
def pyStrip (s : String) : String :=
  String.mk (((s.data.dropWhile Char.isWhitespace).reverse.dropWhile
    Char.isWhitespace).reverse)

/-- Python `s.startswith(p)`: `p` is a character-wise prefix of `s`. -/
def pyStartsWith (s p : String) : Bool :=
  p.data.isPrefixOf s.data

/-- Python `str.lower()` (ASCII case folding, as used on mood labels). -/
def pyLower (s : String) : String :=
  String.mk (s.data.map Char.toLower)

/-- Python truthiness chain `a or d` for an optional string: `None` and the
empty string are falsy. -/
def pyOrElse (a : Option String) (d : String) : String :=
  match a with
  | some s => if s = "" then d else s
  | none => d

/-- Whether `sep` occurs as a contiguous subsequence of `s`. -/
def containsSeq (sep : List Char) : List Char → Bool
  | [] => sep.isEmpty
  | c :: rest => sep.isPrefixOf (c :: rest) || containsSeq sep rest

/-- Drop everything up to and including the leftmost occurrence of `sep`;
identity-like scan when `sep` does not occur. -/
def dropThroughFirst (sep : List Char) : List Char → List Char
  | [] => []
  | c :: rest =>
    if sep.isPrefixOf (c :: rest) then List.drop sep.length (c :: rest)
    else dropThroughFirst sep rest

/-- Worker for `pySplitLast`.  Each pass drops through one separator
occurrence and shortens the scanned list, so `s.length` passes always
suffice as fuel; fuel keeps the recursion structural. -/
def pySplitLastAux (sep : List Char) : Nat → List Char → List Char
  | 0, s => s
  | fuel + 1, s =>
    if sep ≠ [] ∧ containsSeq sep s = true then
      pySplitLastAux sep fuel (dropThroughFirst sep s)
    else s

/-- Python `s.split(sep)[-1]`: the suffix after the last of the
left-to-right, non-overlapping occurrences of `sep`; `s` itself when `sep`
does not occur. -/
def pySplitLast (sep s : List Char) : List Char :=
  pySplitLastAux sep s.length s

/-- UTF-8 encoding of one code point, as byte values. -/
def utf8BytesOfChar (c : Char) : List Nat :=
  let n := c.toNat
  if n < 0x80 then [n]
  else if n < 0x800 then
    [0xC0 + n / 0x40, 0x80 + n % 0x40]
  else if n < 0x10000 then
    [0xE0 + n / 0x1000, 0x80 + n / 0x40 % 0x40, 0x80 + n % 0x40]
  else
    [0xF0 + n / 0x40000, 0x80 + n / 0x1000 % 0x40, 0x80 + n / 0x40 % 0x40,
      0x80 + n % 0x40]

/-- Uppercase hexadecimal digit. -/
def hexUpper (n : Nat) : Char :=
  if n < 10 then Char.ofNat (48 + n) else Char.ofNat (55 + n)

/-- The bytes `urllib.parse.quote_plus` passes through unescaped:
ASCII letters, digits, and `_ . - ~`. -/
def quoteAlwaysSafe (b : Nat) : Bool :=
  (65 ≤ b && b ≤ 90) || (97 ≤ b && b ≤ 122) || (48 ≤ b && b ≤ 57) ||
    b == 95 || b == 46 || b == 45 || b == 126

/-- One byte in `quote_plus` output: space becomes `+`, safe bytes pass
through, everything else is percent-escaped in uppercase hex. -/
def quotePlusByte (b : Nat) : List Char :=
  if b == 32 then ['+']
  else if quoteAlwaysSafe b then [Char.ofNat b]
  else ['%', hexUpper (b / 16), hexUpper (b % 16)]

/-- `urllib.parse.quote_plus` over the UTF-8 bytes of `s`. -/
def quote_plus (s : String) : String :=
  String.mk ((s.data.flatMap utf8BytesOfChar).flatMap quotePlusByte)

/-! ### Data model: dataset rows and song descriptors

A row of `genres.csv` as seen through `row.get(...)`: string-typed cells
are `Option String` (`none` plays the role of Python `None` / a missing
column), audio features are rationals. -/

structure Row where
  id : Option String := none
  song_name : Option String := none
  title : Option String := none
  artist : Option String := none
  uri : Option String := none
  genre : Option String := none
  valence : ℚ := 0
  energy : ℚ := 0
  acousticness : ℚ := 0
deriving DecidableEq, Repr

/-- The `Song` pydantic model of `mood_recommender.py`. -/
structure Song where
  id : String
  name : String
  genre : Option String := none
  uri : Option String := none
deriving DecidableEq, Repr

/-! ### mood_recommender.py -/

/-- `_filter_df_for_mood` (mood_recommender.py lines 42-63): filter the songs
dataframe by fixed audio-feature thresholds, matching the lowercased mood. -/
def _filter_df_for_mood (df : List Row) (mood : String) : List Row :=
  let mood_lower := pyLower mood
  if mood_lower = "happy" then
    df.filter (fun r => decide ((6 : ℚ)/10 ≤ r.valence))
  else if mood_lower = "sad" then
    df.filter (fun r => decide (r.valence ≤ (4 : ℚ)/10))
  else if mood_lower = "calm" then
    df.filter (fun r =>
      decide ((5 : ℚ)/10 ≤ r.acousticness) && decide (r.energy ≤ (6 : ℚ)/10))
  else if mood_lower = "angry" then
    df.filter (fun r => decide ((8 : ℚ)/10 ≤ r.energy))
  else
    df

/-- Lines 71-74 of `recommend_songs_for_mood`: the mood-filtered subset,
falling back to the whole dataframe when the filter selects nothing. -/
def candidateSubset (df : List Row) (mood : String) : List Row :=
  let subset := _filter_df_for_mood df mood
  if subset.isEmpty then df else subset

/-- `raw_name = row.get("song_name") or row.get("title") or ""`. -/
def rawName (r : Row) : String :=
  pyOrElse r.song_name (pyOrElse r.title "")

/-- Line 90: `str(raw_uri).strip() if isinstance(raw_uri, str) else ""`. -/
def rawUriStr (raw_uri : Option String) : String :=
  match raw_uri with
  | some s => pyStrip s
  | none => ""

/-- Lines 93-95: rewrite of a `spotify:track:` URI to the open.spotify.com
web URL, via `uri.split("spotify:track:")[-1]`. -/
def spotifyRewrite (uri : String) : String :=
  "https://open.spotify.com/track/" ++
    String.mk (pySplitLast "spotify:track:".data uri.data)

/-- Lines 98-100: the YouTube search fallback link,
`quote_plus(f"{name} {artist}".strip())`. -/
def youtubeFallback (name artist : String) : String :=
  "https://www.youtube.com/results?search_query=" ++
    quote_plus (pyStrip (name ++ " " ++ artist))

/-- Lines 88-100 of `recommend_songs_for_mood` (the URI Resolver): strip the
raw cell, rewrite a `spotify:track:` URI to the open.spotify.com web URL,
and otherwise fall back to a YouTube search link for name and artist. -/
def resolveUri (raw_uri : Option String) (name artist : String) : String :=
  let uri := rawUriStr raw_uri
  let uri :=
    if pyStartsWith uri "spotify:track:" then spotifyRewrite uri
    else uri
  if uri = "" || !(pyStartsWith uri "http://" || pyStartsWith uri "https://")
  then
    youtubeFallback name artist
  else uri

/-- The loop body of `recommend_songs_for_mood` (lines 80-112): build the
song descriptor for one row, or `none` when the resolved display name is
empty after stripping (the `continue`). -/
def buildSong (r : Row) : Option Song :=
  let name := pyStrip (rawName r)
  if name = "" then none
  else
    let song_id := pyOrElse r.id ""
    let uri := resolveUri r.uri name ((r.artist).getD "")
    let genre :=
      match r.genre with
      | some g => some (pyStrip g)
      | none => none
    some
      { id := song_id
        name := name
        genre := match genre with
          | some g => if g = "" then none else some g
          | none => none
        uri := if uri = "" then none else some uri }

/-- Lines 71-77 of `recommend_songs_for_mood`: the candidate subset after
the empty-filter fallback and, when it exceeds the limit, the
`subset.sample(n=limit, random_state=None)` step (modelled by the explicit
`sample` argument). -/
def processedSubset (df : List Row) (sample : List Row → Nat → List Row)
    (mood : String) (limit : Nat) : List Row :=
  let subset := candidateSubset df mood
  if limit < subset.length then sample subset limit else subset

/-- `recommend_songs_for_mood` (lines 66-114): the descriptor-building loop
over the processed subset; rows with an empty stripped name are skipped. -/
def recommend_songs_for_mood (df : List Row)
    (sample : List Row → Nat → List Row) (mood : String)
    (limit : Nat := 10) : List Song :=
  (processedSubset df sample mood limit).filterMap buildSong

/-- What `DataFrame.sample(n, replace=False)` guarantees when `n` does not
exceed the population: exactly `n` rows, drawn without replacement (the
result is a sub-permutation of the population).  Which `n` rows come back
is the intentionally unseeded randomness, left abstract. -/
def SampleOK (sample : List Row → Nat → List Row) : Prop :=
  ∀ l n, n ≤ l.length → (sample l n).length = n ∧ sample l n <+~ l

/-! ### mood_service.py -/

/-- A grayscale image: height, width, and a pixel intensity lookup
`px y x` (row `y`, column `x`). -/
structure GrayImage where
  h : Nat
  w : Nat
  px : Nat → Nat → Nat

/-- The no-face fallback of `predict_mood_from_image_bytes` (lines 99-105):
the centered square crop of side `min(h, w)` of the full grayscale image,
via `gray[y0 : y0 + size, x0 : x0 + size]`. -/
def centerSquareCrop (g : GrayImage) : GrayImage :=
  let size := min g.h g.w
  let y0 := (g.h - size) / 2
  let x0 := (g.w - size) / 2
  { h := size, w := size, px := fun y x => g.px (y0 + y) (x0 + x) }

/-- Lines 99-108: region-of-interest selection.  With zero detected faces
the centered square fallback is used; otherwise the first detected box
`(x, y, w, h)` is cropped. -/
def selectRoi (g : GrayImage) (faces : List (Nat × Nat × Nat × Nat)) :
    GrayImage :=
  match faces with
  | [] => centerSquareCrop g
  | (x, y, w, h) :: _ => { h := h, w := w, px := fun yy xx => g.px (y + yy) (x + xx) }

/-- Maximum of a list of rationals (helper for `np.argmax`). -/
def listMaxQ : List ℚ → ℚ
  | [] => 0
  | [x] => x
  | x :: y :: xs => max x (listMaxQ (y :: xs))

/-- `np.argmax` over a 1-D array: the index of the first occurrence of the
maximum value (0 on the empty list, where numpy instead raises). -/
def np_argmax : List ℚ → Nat
  | [] => 0
  | [_] => 0
  | x :: y :: xs => if x < listMaxQ (y :: xs) then np_argmax (y :: xs) + 1 else 0

/-- `_EMOTION_DICT` (mood_service.py lines 20-25). -/
def _EMOTION_DICT : Nat → Option String
  | 0 => some "Angry"
  | 1 => some "Sad"
  | 2 => some "Happy"
  | 3 => some "Calm"
  | _ => none

/-- Lines 115-116 of `predict_mood_from_image_bytes`:
`_EMOTION_DICT.get(int(np.argmax(prediction)), "Calm")`. -/
def predictionToLabel (prediction : List ℚ) : String :=
  (_EMOTION_DICT (np_argmax prediction)).getD "Calm"

/-- The loaded Keras model, abstracted to the one fact the lifecycle claims
depend on: whether its weights were loaded. -/
structure KerasModel where
  weightsLoaded : Bool
deriving DecidableEq, Repr

/-- `_build_model` (mood_service.py lines 30-65), abstracted over the layer
stack: raises `FileNotFoundError` when the weight artifact is absent,
otherwise returns the model with weights loaded. -/
def _build_model (weights_path_exists : Bool) : Except String KerasModel :=
  if weights_path_exists then .ok ⟨true⟩
  else .error "Emotion model weights not found at WEIGHTS_PATH."

/-- `_get_model` (lines 68-72) as one step on the module-level cache
`_model : Option KerasModel`.  Returns the call outcome and the cache value
after the call; when `_build_model` raises, the assignment to `_model` does
not happen, so the cache stays as it was (`none`). -/
def _get_model (weights_path_exists : Bool) (_model : Option KerasModel) :
    Except String KerasModel × Option KerasModel :=
  match _model with
  | some m => (.ok m, some m)
  | none =>
    match _build_model weights_path_exists with
    | .ok m => (.ok m, some m)
    | .error e => (.error e, none)

/-! ### routers/mood.py -/

/-- An HTTP error response (`HTTPException`): status code and detail. -/
structure HttpError where
  status : Nat
  detail : String
deriving DecidableEq, Repr

/-- The mood event returned by `POST /mood/detect` (persistence fields and
timestamps omitted: storage is outside the pipeline boundary). -/
structure MoodEventOut where
  userId : String
  mood : String
  songs : List Song
deriving DecidableEq, Repr

/-- `detect_mood` (routers/mood.py lines 41-80): reject empty uploads with
400, turn any classification exception `exc` into a 500 whose detail is the
f-string `"Failed to analyze image: {exc}"`, and otherwise recommend songs
for the predicted label.  `predict` abstracts
`predict_mood_from_image_bytes`: `.error exc` is a raised exception with
message `exc`. -/
def detect_mood (userId : String) (data : List Nat)
    (predict : List Nat → Except String String)
    (df : List Row) (sample : List Row → Nat → List Row) :
    Except HttpError MoodEventOut :=
  if data.isEmpty then
    .error ⟨400, "Uploaded image is empty."⟩
  else
    match predict data with
    | .error exc => .error ⟨500, "Failed to analyze image: " ++ exc⟩
    | .ok mood_label =>
      .ok ⟨userId, mood_label, recommend_songs_for_mood df sample mood_label 10⟩

/-! ### Specification-side definitions (for refinement statements) -/

/-- The filtering policy as the specification states it: one pass over the
dataset keeping the rows the mood's threshold predicate accepts
(`Happy` keeps `valence ≥ 0.6`, `Sad` keeps `valence ≤ 0.4`, `Calm` keeps
`acousticness ≥ 0.5 AND energy ≤ 0.6`, `Angry` keeps `energy ≥ 0.8`), with
case-insensitive label matching and every row kept for an unrecognized
label. -/
def specMoodFilter (df : List Row) (mood : String) : List Row :=
  df.filter fun r =>
    if pyLower mood = "happy" then decide ((6 : ℚ)/10 ≤ r.valence)
    else if pyLower mood = "sad" then decide (r.valence ≤ (4 : ℚ)/10)
    else if pyLower mood = "calm" then
      decide ((5 : ℚ)/10 ≤ r.acousticness) && decide (r.energy ≤ (6 : ℚ)/10)
    else if pyLower mood = "angry" then decide ((8 : ℚ)/10 ≤ r.energy)
    else true

/-! ### Concrete datasets for closed instances -/

/-- A row whose display name strips to the empty string. -/
def rowBlank : Row := { song_name := some "   " }

/-- A second blank-named row: the name comes from the `title` column. -/
def rowBlankTitle : Row := { title := some " " }

/-- Rows with usable display names. -/
def rowAlpha : Row := { song_name := some "Alpha" }

def rowBeta : Row := { song_name := some "Beta" }

def rowGamma : Row := { song_name := some "Gamma" }

/-- A dataset whose first rows have blank names while three later rows have
usable names: sampling the first `limit` rows hits only blank names. -/
def dfSkip : List Row := [rowBlank, rowBlank, rowAlpha, rowBeta, rowGamma]

/-- A non-empty dataset in which every display name strips to empty. -/
def dfAllBlank : List Row := [rowBlank, rowBlankTitle]

/-! ### Helper lemmas -/

theorem take_sampleOK : SampleOK (fun l n => l.take n) := by
  intro l n hn
  refine ⟨by simp [List.length_take, Nat.min_eq_left hn], ?_⟩
  exact (List.take_sublist n l).subperm

theorem isPrefixOf_append_self (a b : List Char) :
    a.isPrefixOf (a ++ b) = true := by
  induction a with
  | nil => cases b <;> rfl
  | cons c cs ih => simp [List.isPrefixOf, ih]

theorem isPrefixOf_append_of (a b c : List Char) (h : a.isPrefixOf b = true) :
    a.isPrefixOf (b ++ c) = true := by
  induction a generalizing b with
  | nil => cases b ++ c <;> rfl
  | cons x xs ih =>
    cases b with
    | nil => simp [List.isPrefixOf] at h
    | cons y ys =>
      simp only [List.isPrefixOf, Bool.and_eq_true, beq_iff_eq] at h
      simp only [List.cons_append, List.isPrefixOf, Bool.and_eq_true,
        beq_iff_eq]
      exact ⟨h.1, ih ys h.2⟩

theorem pyStartsWith_append_self (p rest : String) :
    pyStartsWith (p ++ rest) p = true := by
  simp [pyStartsWith, String.data_append, isPrefixOf_append_self]

theorem pyStartsWith_append_of (p q rest : String)
    (h : pyStartsWith p q = true) : pyStartsWith (p ++ rest) q = true := by
  simp only [pyStartsWith, String.data_append]
  exact isPrefixOf_append_of q.data p.data rest.data h

theorem append_ne_empty_left (p rest : String) (h : p ≠ "") :
    p ++ rest ≠ "" := by
  intro hc
  apply h
  have hd : (p ++ rest).data = ("" : String).data := by rw [hc]
  rw [String.data_append] at hd
  have : p.data = [] := (List.append_eq_nil.mp hd).1
  exact String.ext this

theorem isPrefixOf_head_eq (c d : Char) (a b : List Char)
    (h : (c :: a).isPrefixOf (d :: b) = true) : c = d := by
  simp only [List.isPrefixOf, Bool.and_eq_true, beq_iff_eq] at h
  exact h.1

theorem ne_empty_of_pyStartsWith_http (t : String)
    (h : pyStartsWith t "http://" = true ∨ pyStartsWith t "https://" = true) :
    t ≠ "" := by
  intro hc
  subst hc
  rcases h with h | h <;> simp [pyStartsWith, List.isPrefixOf] at h

theorem not_spotify_of_http (t : String)
    (h : pyStartsWith t "http://" = true ∨ pyStartsWith t "https://" = true) :
    pyStartsWith t "spotify:track:" = false := by
  by_contra hs
  rw [Bool.not_eq_false] at hs
  unfold pyStartsWith at h hs
  cases ht : t.data with
  | nil =>
    rw [ht] at h
    rcases h with h | h <;> simp [List.isPrefixOf] at h
  | cons c cs =>
    rw [ht] at h hs
    have hcs : 's' = c := isPrefixOf_head_eq 's' c _ cs hs
    rcases h with h | h <;>
      · have hch : 'h' = c := isPrefixOf_head_eq 'h' c _ cs h
        rw [← hch] at hcs
        exact absurd hcs (by decide)

theorem np_argmax_lt_length (l : List ℚ) (h : l ≠ []) :
    np_argmax l < l.length := by
  induction l with
  | nil => exact absurd rfl h
  | cons x xs ih =>
    cases xs with
    | nil => simp [np_argmax]
    | cons y ys =>
      by_cases hlt : x < listMaxQ (y :: ys)
      · have := ih (by simp)
        simp only [np_argmax, if_pos hlt, List.length_cons] at this ⊢
        omega
      · simp [np_argmax, if_neg hlt]

theorem getD_np_argmax_eq_max (l : List ℚ) (h : l ≠ []) :
    l.getD (np_argmax l) 0 = listMaxQ l := by
  induction l with
  | nil => exact absurd rfl h
  | cons x xs ih =>
    cases xs with
    | nil => simp [np_argmax, listMaxQ]
    | cons y ys =>
      by_cases hlt : x < listMaxQ (y :: ys)
      · have hx := ih (by simp)
        simp only [np_argmax, listMaxQ, if_pos hlt, List.getD_cons_succ]
        rw [hx]
        exact (max_eq_right (le_of_lt hlt)).symm
      · push_neg at hlt
        simp only [np_argmax, listMaxQ, if_neg (not_lt.mpr hlt),
          List.getD_cons_zero]
        exact (max_eq_left hlt).symm

theorem getD_le_listMaxQ (l : List ℚ) (j : Nat) (hj : j < l.length) :
    l.getD j 0 ≤ listMaxQ l := by
  induction l generalizing j with
  | nil => simp at hj
  | cons x xs ih =>
    cases xs with
    | nil =>
      cases j with
      | zero => simp [listMaxQ]
      | succ n => simp at hj
    | cons y ys =>
      simp only [listMaxQ]
      cases j with
      | zero => simp
      | succ n =>
        simp only [List.getD_cons_succ]
        have hn : n < (y :: ys).length := by
          simp only [List.length_cons] at hj ⊢
          omega
        exact le_trans (ih n hn) (le_max_right _ _)

theorem np_argmax_first_max (l : List ℚ) (j : Nat) (hj : j < np_argmax l) :
    l.getD j 0 < l.getD (np_argmax l) 0 := by
  induction l generalizing j with
  | nil => simp [np_argmax] at hj
  | cons x xs ih =>
    cases xs with
    | nil => simp [np_argmax] at hj
    | cons y ys =>
      by_cases hlt : x < listMaxQ (y :: ys)
      · simp only [np_argmax, if_pos hlt] at hj ⊢
        cases j with
        | zero =>
          simp only [List.getD_cons_zero, List.getD_cons_succ]
          rw [getD_np_argmax_eq_max (y :: ys) (by simp)]
          exact hlt
        | succ n =>
          simp only [List.getD_cons_succ]
          exact ih n (Nat.lt_of_succ_lt_succ hj)
      · simp only [np_argmax, if_neg hlt] at hj
        omega

theorem filter_mood_length_le (df : List Row) (mood : String) :
    (_filter_df_for_mood df mood).length ≤ df.length := by
  simp only [_filter_df_for_mood]
  split_ifs <;> first
    | exact List.length_filter_le _ _
    | exact le_refl _

theorem candidateSubset_length_le (df : List Row) (mood : String) :
    (candidateSubset df mood).length ≤ df.length := by
  simp only [candidateSubset]
  split
  · exact le_refl _
  · exact filter_mood_length_le df mood

/-! ### Claim theorems -/

/-- C1: for every mood string, `_filter_df_for_mood` filters the dataset
with the fixed thresholds under case-insensitive label matching — it equals
the specification-side single-pass filter (`Happy`: valence ≥ 0.6, `Sad`:
valence ≤ 0.4, `Calm`: acousticness ≥ 0.5 and energy ≤ 0.6, `Angry`:
energy ≥ 0.8) — and any other label returns the entire dataset
unfiltered. -/
theorem C1_mood_filter_matches_spec (df : List Row) (mood : String) :
    _filter_df_for_mood df mood = specMoodFilter df mood ∧
    (pyLower mood ∉ (["happy", "sad", "calm", "angry"] : List String) →
      _filter_df_for_mood df mood = df) := by
  constructor
  · by_cases h1 : pyLower mood = "happy"
    · simp [_filter_df_for_mood, specMoodFilter, h1]
    · by_cases h2 : pyLower mood = "sad"
      · simp [_filter_df_for_mood, specMoodFilter, h1, h2]
      · by_cases h3 : pyLower mood = "calm"
        · simp [_filter_df_for_mood, specMoodFilter, h1, h2, h3]
        · by_cases h4 : pyLower mood = "angry"
          · simp [_filter_df_for_mood, specMoodFilter, h1, h2, h3, h4]
          · simp [_filter_df_for_mood, specMoodFilter, h1, h2, h3, h4]
  · intro h
    simp only [List.mem_cons, List.mem_singleton, not_or] at h
    obtain ⟨h1, h2, h3, h4⟩ := h
    simp [_filter_df_for_mood, h1, h2, h3, h4]

/-- C2 counterexample: on a classification failure with internal cause
`"boom"`, the response returned to the caller has detail
`"Failed to analyze image: boom"`, which contains the internal cause — it is
not an opaque error that hides the cause from the caller. -/
theorem C2_counterexample_cause_exposed :
    detect_mood "u" [1] (fun _ => .error "boom") [] (fun l n => l.take n) =
      .error ⟨500, "Failed to analyze image: " ++ "boom"⟩ ∧
    containsSeq "boom".data ("Failed to analyze image: " ++ "boom").data
      = true ∧
    ("boom" : String) ≠ "" :=
  ⟨rfl, by decide, by decide⟩

/-- C2 amended: for every image input on which classification raises an
unexpected failure, the orchestrator surfaces a single 500 error whose
detail is `"Failed to analyze image: "` followed by the internal exception
message — the internal cause is embedded in the response returned to the
caller (and the code does no separate logging). -/
theorem C2_amended_error_embeds_cause (userId : String) (data : List Nat)
    (predict : List Nat → Except String String) (df : List Row)
    (sample : List Row → Nat → List Row) (exc : String)
    (hdata : data ≠ []) (hp : predict data = .error exc) :
    detect_mood userId data predict df sample =
      .error ⟨500, "Failed to analyze image: " ++ exc⟩ := by
  cases data with
  | nil => exact absurd rfl hdata
  | cons d ds => simp [detect_mood, hp]

theorem C2_amended_witness :
    detect_mood "u" [1] (fun _ => .error "boom") [] (fun l n => l.take n) =
      .error ⟨500, "Failed to analyze image: " ++ "boom"⟩ :=
  C2_amended_error_embeds_cause "u" [1] (fun _ => .error "boom") []
    (fun l n => l.take n) "boom" (by decide) rfl

/-- C3 counterexample: with the weight artifact missing, the first call
fails with the load error and leaves the cached `_model` at `none`; a
subsequent call starting from that cache state constructs and loads the
model again — here it succeeds once the artifact exists, which could not
happen if the failure were not retried. -/
theorem C3_counterexample_load_retried :
    (_get_model false none).1 =
      .error "Emotion model weights not found at WEIGHTS_PATH." ∧
    (_get_model false none).2 = none ∧
    (_get_model true ((_get_model false none).2)).1 = .ok ⟨true⟩ ∧
    (_get_model false ((_get_model false none).2)).1 =
      .error "Emotion model weights not found at WEIGHTS_PATH." :=
  ⟨rfl, rfl, rfl, rfl⟩

/-- C3 amended: if the classifier weight artifact is missing, the load
fails for that request (`FileNotFoundError` from `_build_model`), but the
failure is not cached: `_model` stays `none`, so a subsequent inference
request behaves exactly like a fresh first request — it attempts to
construct and load the model again, failing again while the artifact is
missing and succeeding once it exists. -/
theorem C3_amended_failure_not_cached (weights_now : Bool) :
    (_get_model false none).2 = none ∧
    _get_model weights_now ((_get_model false none).2) =
      _get_model weights_now none ∧
    (_get_model weights_now none).1 =
      (if weights_now then .ok ⟨true⟩
       else .error "Emotion model weights not found at WEIGHTS_PATH.") := by
  refine ⟨rfl, rfl, ?_⟩
  cases weights_now <;> rfl

/-- C4 counterexample: the raw value `"https://example.com "` already
starts with `https://`, yet it is not used unchanged — the resolver strips
the trailing whitespace and returns `"https://example.com"`. -/
theorem C4_counterexample_not_unchanged :
    pyStartsWith "https://example.com " "https://" = true ∧
    resolveUri (some "https://example.com ") "Song" "Artist" =
      "https://example.com" ∧
    ("https://example.com" : String) ≠ "https://example.com " :=
  ⟨by decide, by decide, by decide⟩

/-- C4 amended: the raw uri value is first stripped of surrounding
whitespace (non-strings become empty).  The resolver's output is always
non-empty and starts with `http://` or `https://`; a stripped value already
starting with `http(s)://` is returned as that stripped value; a stripped
value starting with `spotify:track:` is rewritten to the platform web URL
`https://open.spotify.com/track/<id>`; any other value falls back to the
YouTube search URL built from the URL-encoded song name and artist. -/
theorem C4_amended_resolver (raw_uri : Option String) (name artist : String) :
    (resolveUri raw_uri name artist ≠ "" ∧
      (pyStartsWith (resolveUri raw_uri name artist) "http://" = true ∨
        pyStartsWith (resolveUri raw_uri name artist) "https://" = true)) ∧
    ((pyStartsWith (rawUriStr raw_uri) "http://" = true ∨
        pyStartsWith (rawUriStr raw_uri) "https://" = true) →
      resolveUri raw_uri name artist = rawUriStr raw_uri) ∧
    (pyStartsWith (rawUriStr raw_uri) "spotify:track:" = true →
      resolveUri raw_uri name artist = spotifyRewrite (rawUriStr raw_uri)) ∧
    ((pyStartsWith (rawUriStr raw_uri) "http://" = false ∧
        pyStartsWith (rawUriStr raw_uri) "https://" = false ∧
        pyStartsWith (rawUriStr raw_uri) "spotify:track:" = false) →
      resolveUri raw_uri name artist = youtubeFallback name artist) := by
  have hyne : youtubeFallback name artist ≠ "" := by
    unfold youtubeFallback
    exact append_ne_empty_left _ _ (by decide)
  have hyhttps :
      pyStartsWith (youtubeFallback name artist) "https://" = true := by
    unfold youtubeFallback
    exact pyStartsWith_append_of _ "https://" _ (by decide)
  by_cases hsp : pyStartsWith (rawUriStr raw_uri) "spotify:track:" = true
  · have hne : spotifyRewrite (rawUriStr raw_uri) ≠ "" := by
      unfold spotifyRewrite
      exact append_ne_empty_left _ _ (by decide)
    have hhttps :
        pyStartsWith (spotifyRewrite (rawUriStr raw_uri)) "https://"
          = true := by
      unfold spotifyRewrite
      exact pyStartsWith_append_of _ "https://" _ (by decide)
    have hres : resolveUri raw_uri name artist =
        spotifyRewrite (rawUriStr raw_uri) := by
      simp only [resolveUri, hsp, if_true, decide_eq_false hne, hhttps,
        Bool.or_true, Bool.not_true, Bool.or_false, Bool.false_eq_true,
        if_false]
    have hnothttp : pyStartsWith (rawUriStr raw_uri) "http://" = false ∧
        pyStartsWith (rawUriStr raw_uri) "https://" = false := by
      constructor <;>
        · by_contra hcon
          rw [Bool.not_eq_false] at hcon
          have := not_spotify_of_http (rawUriStr raw_uri)
            (by first | exact Or.inl hcon | exact Or.inr hcon)
          rw [hsp] at this
          exact absurd this (by decide)
    refine ⟨⟨by rw [hres]; exact hne, by rw [hres]; exact Or.inr hhttps⟩,
      ?_, fun _ => hres, ?_⟩
    · intro h
      rcases h with h | h
      · rw [hnothttp.1] at h
        exact absurd h (by decide)
      · rw [hnothttp.2] at h
        exact absurd h (by decide)
    · intro h
      rw [hsp] at h
      exact absurd h.2.2 (by decide)
  · rw [Bool.not_eq_true] at hsp
    by_cases hhttp : pyStartsWith (rawUriStr raw_uri) "http://" = true ∨
        pyStartsWith (rawUriStr raw_uri) "https://" = true
    · have htne : rawUriStr raw_uri ≠ "" :=
        ne_empty_of_pyStartsWith_http _ hhttp
      have hcond : (decide (rawUriStr raw_uri = "") ||
          !(pyStartsWith (rawUriStr raw_uri) "http://" ||
            pyStartsWith (rawUriStr raw_uri) "https://")) = false := by
        rcases hhttp with h | h
        · rw [decide_eq_false htne, h, Bool.true_or]
          rfl
        · rw [decide_eq_false htne, h, Bool.or_true]
          rfl
      have hres : resolveUri raw_uri name artist = rawUriStr raw_uri := by
        simp only [resolveUri, hsp, if_false, Bool.false_eq_true, hcond]
      refine ⟨⟨by rw [hres]; exact htne, by rw [hres]; exact hhttp⟩,
        fun _ => hres, ?_, ?_⟩
      · intro h
        rw [hsp] at h
        exact absurd h (by decide)
      · intro h
        rcases hhttp with hh | hh
        · rw [h.1] at hh
          exact absurd hh (by decide)
        · rw [h.2.1] at hh
          exact absurd hh (by decide)
    · push_neg at hhttp
      obtain ⟨hh1', hh2'⟩ := hhttp
      have hh1 : pyStartsWith (rawUriStr raw_uri) "http://" = false :=
        Bool.eq_false_iff.mpr hh1'
      have hh2 : pyStartsWith (rawUriStr raw_uri) "https://" = false :=
        Bool.eq_false_iff.mpr hh2'
      have hcond : (decide (rawUriStr raw_uri = "") ||
          !(pyStartsWith (rawUriStr raw_uri) "http://" ||
            pyStartsWith (rawUriStr raw_uri) "https://")) = true := by
        rw [hh1, hh2, Bool.or_false, Bool.not_false, Bool.or_true]
      have hres : resolveUri raw_uri name artist =
          youtubeFallback name artist := by
        simp only [resolveUri, hsp, if_false, Bool.false_eq_true, hcond,
          if_true]
      refine ⟨⟨by rw [hres]; exact hyne, by rw [hres]; exact Or.inr hyhttps⟩,
        ?_, ?_, fun _ => hres⟩
      · intro h
        rcases h with h | h
        · rw [hh1] at h
          exact absurd h (by decide)
        · rw [hh2] at h
          exact absurd h (by decide)
      · intro h
        rw [hsp] at h
        exact absurd h (by decide)

/-- C5: for every mood and limit, under the `DataFrame.sample` contract
(exact size, without replacement) the recommender returns at most `limit`
descriptors and at most as many as the dataset has rows; when the candidate
subset exceeds the limit, exactly `limit` rows are sampled before the
descriptors are built. -/
theorem C5_limit_bounds (df : List Row) (sample : List Row → Nat → List Row)
    (mood : String) (limit : Nat) (hs : SampleOK sample) :
    (recommend_songs_for_mood df sample mood limit).length ≤ limit ∧
    (recommend_songs_for_mood df sample mood limit).length ≤ df.length ∧
    (limit < (candidateSubset df mood).length →
      recommend_songs_for_mood df sample mood limit =
        (sample (candidateSubset df mood) limit).filterMap buildSong ∧
      (sample (candidateSubset df mood) limit).length = limit) := by
  have hsub := candidateSubset_length_le df mood
  by_cases hbig : limit < (candidateSubset df mood).length
  · obtain ⟨hlen, hsubperm⟩ :=
      hs (candidateSubset df mood) limit (le_of_lt hbig)
    have hrec : recommend_songs_for_mood df sample mood limit =
        (sample (candidateSubset df mood) limit).filterMap buildSong := by
      simp only [recommend_songs_for_mood, processedSubset, if_pos hbig]
    refine ⟨?_, ?_, fun _ => ⟨hrec, hlen⟩⟩
    · rw [hrec]
      exact le_of_le_of_eq (List.length_filterMap_le _ _) hlen
    · rw [hrec]
      exact le_trans (List.length_filterMap_le _ _)
        (le_trans hsubperm.length_le hsub)
  · have hrec : recommend_songs_for_mood df sample mood limit =
        (candidateSubset df mood).filterMap buildSong := by
      simp only [recommend_songs_for_mood, processedSubset, if_neg hbig]
    push_neg at hbig
    refine ⟨?_, ?_, fun hcon => absurd hcon (by omega)⟩
    · rw [hrec]
      exact le_trans (List.length_filterMap_le _ _) hbig
    · rw [hrec]
      exact le_trans (List.length_filterMap_le _ _) hsub

theorem C5_limit_bounds_witness :
    (recommend_songs_for_mood dfSkip (fun l n => l.take n) "neutral" 2).length
      ≤ 2 :=
  (C5_limit_bounds dfSkip (fun l n => l.take n) "neutral" 2 take_sampleOK).1

/-- C6: for every mood, if the mood filter selects nothing the candidate
subset is the entire dataset, so the engine never has zero candidates when
the dataset itself is non-empty. -/
theorem C6_empty_filter_falls_back (df : List Row) (mood : String) :
    (_filter_df_for_mood df mood = [] → candidateSubset df mood = df) ∧
    (df ≠ [] → candidateSubset df mood ≠ []) := by
  constructor
  · intro h
    simp [candidateSubset, h]
  · intro hdf
    by_cases he : (_filter_df_for_mood df mood).isEmpty = true
    · simpa [candidateSubset, he] using hdf
    · have hne : _filter_df_for_mood df mood ≠ [] := by
        simpa [List.isEmpty_iff] using he
      simpa [candidateSubset, he] using hne

/-- C7: rows whose display name strips to empty are skipped when building
descriptors (never yielding a song), and the skipping happens after the
limit-sized sample is taken with no backfilling: on `dfSkip`, sampling the
first 2 rows (both blank-named) yields zero descriptors even though the
dataset holds at least 2 rows with non-empty names, which a larger limit
does surface. -/
theorem C7_blank_names_skipped_not_backfilled :
    (∀ r : Row, pyStrip (rawName r) = "" → buildSong r = none) ∧
    recommend_songs_for_mood dfSkip (fun l n => l.take n) "neutral" 2 = [] ∧
    2 ≤ (dfSkip.filter (fun r => decide (pyStrip (rawName r) ≠ ""))).length ∧
    recommend_songs_for_mood dfSkip (fun l n => l.take n) "neutral" 5
      ≠ [] := by
  refine ⟨?_, by decide, by decide, by decide⟩
  intro r h
  simp [buildSong, h]

/-- C8: for every 4-entry probability vector, the returned label is one of
Angry, Sad, Happy, Calm — the one at the `np.argmax` index under the fixed
order 0=Angry, 1=Sad, 2=Happy, 3=Calm — the argmax index is maximal among
all four entries, and ties go to the lowest index, with no confidence
threshold. -/
theorem C8_argmax_label (p : List ℚ) (hp : p.length = 4) :
    predictionToLabel p ∈ (["Angry", "Sad", "Happy", "Calm"] : List String) ∧
    np_argmax p < 4 ∧
    predictionToLabel p =
      (["Angry", "Sad", "Happy", "Calm"] : List String).getD (np_argmax p)
        "Calm" ∧
    (∀ j, j < 4 → p.getD j 0 ≤ p.getD (np_argmax p) 0) ∧
    (∀ j, j < np_argmax p → p.getD j 0 < p.getD (np_argmax p) 0) := by
  have hne : p ≠ [] := by
    intro hnil
    rw [hnil] at hp
    exact absurd hp (by decide)
  have hlt := np_argmax_lt_length p hne
  rw [hp] at hlt
  have h4 : np_argmax p = 0 ∨ np_argmax p = 1 ∨ np_argmax p = 2 ∨
      np_argmax p = 3 := by omega
  refine ⟨?_, hlt, ?_, ?_, fun j hj => np_argmax_first_max p j hj⟩
  · rcases h4 with h | h | h | h <;>
      simp [predictionToLabel, _EMOTION_DICT, h]
  · rcases h4 with h | h | h | h <;>
      simp [predictionToLabel, _EMOTION_DICT, h]
  · intro j hj
    rw [getD_np_argmax_eq_max p hne]
    exact getD_le_listMaxQ p j (by omega)

theorem C8_argmax_label_witness :
    predictionToLabel [0, 1, 1, 0]
      ∈ (["Angry", "Sad", "Happy", "Calm"] : List String) ∧
    np_argmax [0, 1, 1, 0] < 4 ∧
    predictionToLabel [0, 1, 1, 0] =
      (["Angry", "Sad", "Happy", "Calm"] : List String).getD
        (np_argmax [0, 1, 1, 0]) "Calm" ∧
    (∀ j, j < 4 →
      ([0, 1, 1, 0] : List ℚ).getD j 0
        ≤ ([0, 1, 1, 0] : List ℚ).getD (np_argmax [0, 1, 1, 0]) 0) ∧
    (∀ j, j < np_argmax [0, 1, 1, 0] →
      ([0, 1, 1, 0] : List ℚ).getD j 0
        < ([0, 1, 1, 0] : List ℚ).getD (np_argmax [0, 1, 1, 0]) 0) :=
  C8_argmax_label [0, 1, 1, 0] rfl

/-- C9: with zero detected face regions the extractor falls back to the
centered square crop of side `min(height, width)`; in particular a
200-wide, 100-high grayscale image yields the 100×100 crop whose pixel
`(y, x)` reads the original pixel `(y, 50 + x)`. -/
theorem C9_no_face_centered_crop (g : GrayImage) (px : Nat → Nat → Nat)
    (y x : Nat) :
    selectRoi g [] = centerSquareCrop g ∧
    (centerSquareCrop g).h = min g.h g.w ∧
    (centerSquareCrop g).w = min g.h g.w ∧
    (selectRoi ⟨100, 200, px⟩ []).h = 100 ∧
    (selectRoi ⟨100, 200, px⟩ []).w = 100 ∧
    (selectRoi ⟨100, 200, px⟩ []).px y x = px y (50 + x) := by
  refine ⟨rfl, rfl, rfl, rfl, rfl, ?_⟩
  simp only [selectRoi, centerSquareCrop]
  norm_num

/-- C10: the recommender can return an empty list on a non-empty dataset:
whenever every row of the processed (possibly limit-sampled) candidate
subset has a name that strips to empty, every row is skipped; `dfAllBlank`
is a concrete non-empty dataset on which the result is empty. -/
theorem C10_all_blank_names_give_empty_result :
    (∀ (df : List Row) (sample : List Row → Nat → List Row) (mood : String)
      (limit : Nat),
      (∀ r ∈ processedSubset df sample mood limit,
        pyStrip (rawName r) = "") →
      recommend_songs_for_mood df sample mood limit = []) ∧
    (dfAllBlank ≠ [] ∧
      recommend_songs_for_mood dfAllBlank (fun l n => l.take n) "neutral" 10
        = []) := by
  constructor
  · intro df sample mood limit h
    unfold recommend_songs_for_mood
    rw [List.filterMap_eq_nil_iff]
    intro r hr
    simp [buildSong, h r hr]
  · exact ⟨by decide, by decide⟩
